import Mathlib

/-! Verification of the image-classification training helper
(`src/ImageClassification/ImageClassification.ts` plus the shared type
declarations).  The external collaborators (the `image-js` decoder, the
2D-canvas rasterizer behind `browser.fromPixels`, and the remotely fetched
MobileNet backbone of `tensorflow.loadLayersModel`) are abstracted into an
explicit environment `Env`; everything else is translated directly from the
source.
-/

/-- Record type `Category` from the shared type declarations. -/
structure Category where
  color : String
  description : String
  identifier : String
  index : Int
  visible : Bool
deriving DecidableEq, Repr, Inhabited

/-- Enum `Partition` from the shared type declarations. -/
inductive Partition where
  | Training
  | Validation
  | Test
deriving DecidableEq, Repr, Inhabited

/-- Record type `Score` from the shared type declarations. -/
structure Score where
  categoryIdentifier : String
  probability : ℚ
deriving DecidableEq, Repr, Inhabited

/-- Record type `ImageVisualization` from the shared type declarations. -/
structure ImageVisualization where
  brightness : ℚ
  visibleChannels : List ℕ
  contrast : ℚ
  visible : Bool
deriving DecidableEq, Repr, Inhabited

/-- Record type `Image` from the shared type declarations. -/
structure Image where
  categoryIdentifier : String
  checksum : String
  data : String
  identifier : String
  partition : Partition
  scores : List Score
  visualization : ImageVisualization
deriving DecidableEq, Repr, Inhabited

/-- A decoded raster, the result of `ImageJS.Image.load` on an image's
encoded `data` payload. -/
structure Raster where
  width : ℕ
  height : ℕ
  pixels : List ℕ
deriving DecidableEq, Repr, Inhabited

/-- Activations used by the model head (`'relu'`, `'softmax'`). -/
inductive Activation where
  | relu
  | softmax
deriving DecidableEq, Repr

/-- One layer of a tfjs layers model: either a layer coming from the fetched
backbone, or one of the freshly constructed head layers
(`tensorflow.layers.flatten` / `tensorflow.layers.dense`). -/
inductive Layer where
  | backbone (name : String)
  | flatten
  | dense (units : Int) (activation : Activation) (kernelInitializer : String) (useBias : Bool)
deriving DecidableEq, Repr

/-- Environment of external collaborators.

* `decode` — `ImageJS.Image.load`: decodes an image's `data` string, `none`
  modelling a rejected promise (undecodable payload);
* `squarePixel` — the channel value (a byte) that `browser.fromPixels` reads
  at a given row, column and channel of the 224×224 canvas that
  `imageToSquare` produced from the decoded raster;
* `backboneLayers` — the layers of the MobileNet fetched by
  `tensorflow.loadLayersModel` and truncated at `'conv_pw_13_relu'`. -/
structure Env where
  decode : String → Option Raster
  squarePixel : Raster → ℕ → ℕ → Fin 3 → ℕ
  backboneLayers : List Layer

/-- The reserved category identifier meaning "unclassified"; literal
`'00000000-0000-0000-0000-000000000000'` in `createDataset`. -/
def unclassifiedIdentifier : String := "00000000-0000-0000-0000-000000000000"

/-- Source function `findCategoryIndex`: `Array.prototype.findIndex` over the
category list, returning the position of the first category whose
`identifier` matches, and `-1` when none does. -/
def findCategoryIndex : List Category → String → Int
  | [], _ => -1
  | category :: categories, identifier =>
    if category.identifier = identifier then 0
    else
      let rest := findCategoryIndex categories identifier
      if rest = -1 then -1 else rest + 1

/-- Normalization applied per channel inside `extracted`:
`.toFloat().sub(scalar(127.5)).div(scalar(127.5))`. -/
def normalizeChannel (p : ℚ) : ℚ := (p - 255 / 2) / (255 / 2)

/-- The `[1, 224, 224, 3]` tensor produced by `extracted` for one image,
identified by the payload it was decoded from and the decoded raster.  Its
numeric entries are given by `sliceEntry`. -/
structure InputSlice where
  source : String
  raster : Raster
deriving DecidableEq, Repr, Inhabited

/-- Numeric entry of an `InputSlice` at a canvas position and channel: the
byte read off the squared canvas, normalized by `normalizeChannel`. -/
def sliceEntry (env : Env) (s : InputSlice) (row col : ℕ) (channel : Fin 3) : ℚ :=
  normalizeChannel (env.squarePixel s.raster row col channel)

/-- Errors that abort dataset construction (a rejected `ImageJS.Image.load`
promise propagates out of `createDataset`). -/
inductive DatasetError where
  | imageDecodeError
deriving DecidableEq, Repr

/-- A tensor as far as `createDataset` builds one: either the batch
concatenation of per-image `[1,224,224,3]` slices (`tensorflow.concat`), or
a one-hot label tensor (`tensorflow.oneHot`). -/
inductive Tensor where
  | batch (slices : List InputSlice)
  | oneHot (indices : List Int) (depth : ℕ)
deriving DecidableEq, Repr

/-- Shape of a tensor: `[N,224,224,3]` for a batch of image slices,
`[N, depth]` for a one-hot label tensor. -/
def tensorShape : Tensor → List ℕ
  | Tensor.batch slices => [slices.length, 224, 224, 3]
  | Tensor.oneHot indices depth => [indices.length, depth]

/-- Batch size: first entry of the shape. -/
def batchSize : Tensor → ℕ
  | Tensor.batch slices => slices.length
  | Tensor.oneHot indices _ => indices.length

/-- Row that `tensorflow.oneHot` produces for one index: a `1` at the index's
position, `0` elsewhere; an out-of-range index (negative or `≥ depth`)
yields an all-zero row. -/
def oneHotRow (i : Int) (depth : ℕ) : List ℚ :=
  (List.range depth).map fun j : ℕ => if (j : Int) = i then 1 else 0

/-- Source function `extracted`: decode the payload, square it to 224×224 and
normalize.  The geometric and numeric content lives in `imageToSquare` and
`sliceEntry`; the slice records which payload it came from. -/
def extracted (env : Env) (image : Image) : Option InputSlice :=
  (env.decode image.data).map fun raster => { source := image.data, raster := raster }

/-- The filter at the top of `createDataset`: drop every image whose
`categoryIdentifier` equals the unclassified sentinel. -/
def filterLabeled (images : List Image) : List Image :=
  images.filter fun image => image.categoryIdentifier != unclassifiedIdentifier

/-- First loop of `createDataset`: `xs.push(await extracted(image))` per image,
in input order; a decode failure rejects the whole call. -/
def inputSlices (env : Env) : List Image → Except DatasetError (List InputSlice)
  | [] => Except.ok []
  | image :: images =>
    match extracted env image with
    | none => Except.error DatasetError.imageDecodeError
    | some x =>
      match inputSlices env images with
      | Except.error e => Except.error e
      | Except.ok xs => Except.ok (x :: xs)

/-- Second loop of `createDataset`:
`ys.push(findCategoryIndex(categories, image.categoryIdentifier) - 1)` per
image, in input order. -/
def labelVector (categories : List Category) (images : List Image) : List Int :=
  images.map fun image => findCategoryIndex categories image.categoryIdentifier - 1

/-- Result record of `createDataset`: `{ success, x, y }`. -/
structure DatasetResult where
  success : Bool
  x : Tensor
  y : Tensor
deriving DecidableEq, Repr

/-- Source function `createDataset`: filter out sentinel-labeled images, build
the per-image slices and the label vector, concatenate the slices; if the
category list minus the sentinel has fewer than two entries, report failure
(the alert) returning the concatenated tensor as both `x` and `y`; otherwise
one-hot encode the labels against `categories.length - 1` classes. -/
def createDataset (env : Env) (categories : List Category) (images : List Image) :
    Except DatasetError DatasetResult :=
  let labeled := filterLabeled images
  match inputSlices env labeled with
  | Except.error e => Except.error e
  | Except.ok xs =>
    let ys := labelVector categories labeled
    let x := Tensor.batch xs
    if (categories.length : Int) - 1 < 2 then
      Except.ok { success := false, x := x, y := x }
    else
      Except.ok { success := true, x := x, y := Tensor.oneHot ys (categories.length - 1) }

/-- A compiled tfjs model as `createModel` assembles it: the layer list and
the compile configuration. -/
structure ModelSpec where
  layers : List Layer
  loss : String
  metrics : List String
  optimizer : String
deriving DecidableEq, Repr

/-- Source function `createModel`: truncated backbone layers, then a flatten
layer, a dense hidden layer (`units`, relu, varianceScaling, with bias), a
dense output layer (`classes`, softmax, varianceScaling, no bias); compiled
with categorical cross-entropy, accuracy metric and the adam optimizer. -/
def createModel (env : Env) (classes : Int) (units : Int) : ModelSpec :=
  { layers := env.backboneLayers ++
      [Layer.flatten,
       Layer.dense units Activation.relu "varianceScaling" true,
       Layer.dense classes Activation.softmax "varianceScaling" false]
    loss := "categoricalCrossentropy"
    metrics := ["accuracy"]
    optimizer := "adam" }

/-- Options forwarded to `model.fit` (`tensorflow.ModelFitArgs`), modelled by
its representative fields. -/
structure ModelFitArgs where
  epochs : Option ℕ
  batchSize : Option ℕ
deriving DecidableEq, Repr

/-- The empty options object `{}` that `fit` substitutes when no args are
given. -/
def emptyFitArgs : ModelFitArgs := { epochs := none, batchSize := none }

/-- One invocation of the runtime's native `model.fit(x, y, args)`. -/
structure FitCall where
  model : ModelSpec
  x : Tensor
  y : Tensor
  args : ModelFitArgs
deriving DecidableEq, Repr

/-- One invocation of the runtime's native `model.evaluate(x, y)`. -/
structure EvalCall where
  model : ModelSpec
  x : Tensor
  y : Tensor
deriving DecidableEq, Repr

/-- Source function `fit`: build the model with `categories.length - 1`
classes and 100 hidden units, build the dataset, return `undefined` (`none`)
when the dataset reports failure, otherwise invoke the model's native fit
with the given args or `{}`. -/
def fit (env : Env) (images : List Image) (categories : List Category)
    (args : Option ModelFitArgs) : Except DatasetError (Option FitCall) :=
  let model := createModel env ((categories.length : Int) - 1) 100
  match createDataset env categories images with
  | Except.error e => Except.error e
  | Except.ok r =>
    if r.success then
      Except.ok (some { model := model, x := r.x, y := r.y, args := args.getD emptyFitArgs })
    else
      Except.ok none

/-- Source function `evaluate`: same shape as `fit`, invoking the model's
native evaluate. -/
def evaluate (env : Env) (images : List Image) (categories : List Category) :
    Except DatasetError (Option EvalCall) :=
  let model := createModel env ((categories.length : Int) - 1) 100
  match createDataset env categories images with
  | Except.error e => Except.error e
  | Except.ok r =>
    if r.success then
      Except.ok (some { model := model, x := r.x, y := r.y })
    else
      Except.ok none

/-- Source dimensions read off the raster handed to `imageToSquare`. -/
structure SourceDims where
  width : ℕ
  height : ℕ
deriving DecidableEq, Repr

/-- The canvas `imageToSquare` returns: its dimensions and the width and
height at which the source content was drawn (`none` models a non-finite
floating value arising from division by zero). -/
structure SquareCanvas where
  canvasWidth : ℕ
  canvasHeight : ℕ
  drawWidth : Option ℚ
  drawHeight : Option ℚ
deriving DecidableEq, Repr

/-- JavaScript floating division as used for the scale factor: `none` stands
for the non-finite result of dividing by zero. -/
def jsDiv (a b : ℚ) : Option ℚ := if b = 0 then none else some (a / b)

/-- Source function `imageToSquare`: scale factor
`size / Math.max(height, width)`, drawn extent `scale * width` ×
`scale * height`, canvas fixed at `size` × `size`; no validation of the
source dimensions. -/
def imageToSquare (dims : SourceDims) (size : ℕ) : SquareCanvas :=
  let scale : Option ℚ := jsDiv (size : ℚ) (max (dims.height : ℚ) (dims.width : ℚ))
  { canvasWidth := size
    canvasHeight := size
    drawWidth := scale.map fun s => s * (dims.width : ℚ)
    drawHeight := scale.map fun s => s * (dims.height : ℚ) }

/-! Concrete fixtures used by counterexamples and witnesses. -/

/-- A 1×1 decoded raster. -/
def sampleRaster : Raster := { width := 1, height := 1, pixels := [0, 0, 0] }

/-- A concrete environment: every payload decodes to `sampleRaster`, the
squared canvas is all-black, and the truncated backbone has one layer. -/
def sampleEnv : Env :=
  { decode := fun _ => some sampleRaster
    squarePixel := fun _ _ _ _ => 0
    backboneLayers := [Layer.backbone "conv_pw_13_relu"] }

/-- The unclassified sentinel category, at position 0 of the fixtures. -/
def sentinelCategory : Category :=
  { color := "#000000", description := "unclassified", identifier := unclassifiedIdentifier,
    index := 0, visible := true }

/-- A concrete trainable category. -/
def mkCategory (identifier : String) (index : Int) : Category :=
  { color := "#ff0000", description := identifier, identifier := identifier,
    index := index, visible := true }

/-- A concrete image record. -/
def mkImage (identifier data categoryIdentifier : String) (partition : Partition) : Image :=
  { categoryIdentifier := categoryIdentifier, checksum := "", data := data,
    identifier := identifier, partition := partition, scores := [],
    visualization := { brightness := 0, visibleChannels := [], contrast := 0, visible := true } }

/-- C5: for every pixel channel value p in [0, 255], the normalization of the
Dataset Builder maps p to (p - 127.5) / 127.5, which lies in [-1, 1]; in
particular 0 maps to -1, 255 maps to 1 and 127.5 maps to 0 (exactly, over the
rationals). -/
theorem normalizeChannel_unit_interval (p : ℚ) (h0 : 0 ≤ p) (h255 : p ≤ 255) :
    normalizeChannel p = (p - 255 / 2) / (255 / 2) ∧
    -1 ≤ normalizeChannel p ∧ normalizeChannel p ≤ 1 ∧
    normalizeChannel 0 = -1 ∧ normalizeChannel 255 = 1 ∧ normalizeChannel (255 / 2) = 0 := by
  refine ⟨rfl, ?_, ?_, by norm_num [normalizeChannel], by norm_num [normalizeChannel],
    by norm_num [normalizeChannel]⟩
  · rw [normalizeChannel, le_div_iff₀ (by norm_num : (0:ℚ) < 255 / 2)]
    linarith
  · rw [normalizeChannel, div_le_one (by norm_num : (0:ℚ) < 255 / 2)]
    linarith

/-- Witness for C5 at the concrete channel value 100. -/
theorem normalizeChannel_unit_interval_witness :
    (0 : ℚ) ≤ 100 ∧ (100 : ℚ) ≤ 255 ∧
    -1 ≤ normalizeChannel 100 ∧ normalizeChannel 100 ≤ 1 :=
  ⟨by norm_num, by norm_num,
    (normalizeChannel_unit_interval 100 (by norm_num) (by norm_num)).2.1,
    (normalizeChannel_unit_interval 100 (by norm_num) (by norm_num)).2.2.1⟩

/-- C6: for positive source dimensions and any target size, imageToSquare
returns a canvas of exactly size × size, draws the content scaled by
size / max(height, width) anchored at the origin, and the drawn content's
larger dimension equals size exactly. -/
theorem imageToSquare_canvas_and_scale (dims : SourceDims) (size : ℕ)
    (hw : 0 < dims.width) (hh : 0 < dims.height) :
    (imageToSquare dims size).canvasWidth = size ∧
    (imageToSquare dims size).canvasHeight = size ∧
    (imageToSquare dims size).drawWidth =
      some ((size : ℚ) / max (dims.height : ℚ) (dims.width : ℚ) * (dims.width : ℚ)) ∧
    (imageToSquare dims size).drawHeight =
      some ((size : ℚ) / max (dims.height : ℚ) (dims.width : ℚ) * (dims.height : ℚ)) ∧
    ∃ w h : ℚ, (imageToSquare dims size).drawWidth = some w ∧
      (imageToSquare dims size).drawHeight = some h ∧ max w h = (size : ℚ) := by
  have hm : (0:ℚ) < max (dims.height : ℚ) (dims.width : ℚ) :=
    lt_max_iff.mpr (Or.inl (by exact_mod_cast hh))
  have hm0 : max (dims.height : ℚ) (dims.width : ℚ) ≠ 0 := ne_of_gt hm
  have hdw : (imageToSquare dims size).drawWidth =
      some ((size : ℚ) / max (dims.height : ℚ) (dims.width : ℚ) * (dims.width : ℚ)) := by
    simp [imageToSquare, jsDiv, hm0]
  have hdh : (imageToSquare dims size).drawHeight =
      some ((size : ℚ) / max (dims.height : ℚ) (dims.width : ℚ) * (dims.height : ℚ)) := by
    simp [imageToSquare, jsDiv, hm0]
  refine ⟨rfl, rfl, hdw, hdh, _, _, hdw, hdh, ?_⟩
  rcases le_total (dims.width : ℚ) (dims.height : ℚ) with hle | hle
  · have hmx : max (dims.height : ℚ) (dims.width : ℚ) = (dims.height : ℚ) := max_eq_left hle
    rw [hmx]
    have h1 : (size : ℚ) / (dims.height : ℚ) * (dims.height : ℚ) = (size : ℚ) :=
      div_mul_cancel₀ _ (by exact_mod_cast hh.ne')
    have h2 : (size : ℚ) / (dims.height : ℚ) * (dims.width : ℚ) ≤
        (size : ℚ) / (dims.height : ℚ) * (dims.height : ℚ) :=
      mul_le_mul_of_nonneg_left hle (div_nonneg (by positivity) (by positivity))
    rw [max_eq_right h2, h1]
  · have hmx : max (dims.height : ℚ) (dims.width : ℚ) = (dims.width : ℚ) := max_eq_right hle
    rw [hmx]
    have h1 : (size : ℚ) / (dims.width : ℚ) * (dims.width : ℚ) = (size : ℚ) :=
      div_mul_cancel₀ _ (by exact_mod_cast hw.ne')
    have h2 : (size : ℚ) / (dims.width : ℚ) * (dims.height : ℚ) ≤
        (size : ℚ) / (dims.width : ℚ) * (dims.width : ℚ) :=
      mul_le_mul_of_nonneg_left hle (div_nonneg (by positivity) (by positivity))
    rw [max_eq_left h2, h1]

/-- Witness for C6 at a concrete 3 × 2 source and target size 224. -/
theorem imageToSquare_canvas_and_scale_witness :
    0 < (3:ℕ) ∧ 0 < (2:ℕ) ∧
    (imageToSquare { width := 3, height := 2 } 224).canvasWidth = 224 ∧
    ∃ w h : ℚ, (imageToSquare { width := 3, height := 2 } 224).drawWidth = some w ∧
      (imageToSquare { width := 3, height := 2 } 224).drawHeight = some h ∧
      max w h = ((224 : ℕ) : ℚ) :=
  ⟨by norm_num, by norm_num,
    (imageToSquare_canvas_and_scale { width := 3, height := 2 } 224
      (by norm_num) (by norm_num)).1,
    (imageToSquare_canvas_and_scale { width := 3, height := 2 } 224
      (by norm_num) (by norm_num)).2.2.2.2⟩

/-- C7 (contrary to the claim): on a source whose width and height are both
zero, imageToSquare raises no error of any kind; it still returns a
224 × 224 canvas, while the scale size / max(height, width) divides by zero,
so the drawn extent is a non-finite (degenerate) value. -/
theorem imageToSquare_zero_dims_returns_canvas :
    imageToSquare { width := 0, height := 0 } 224 =
      { canvasWidth := 224, canvasHeight := 224, drawWidth := none, drawHeight := none } := by
  simp [imageToSquare, jsDiv]

/-! Helper lemmas about the dataset pipeline. -/

/-- The sentinel filter is the identity on lists that contain no
sentinel-labeled image. -/
theorem filterLabeled_eq_self {images : List Image}
    (h : ∀ image ∈ images, image.categoryIdentifier ≠ unclassifiedIdentifier) :
    filterLabeled images = images := by
  rw [filterLabeled, List.filter_eq_self]
  intro image hmem
  exact bne_iff_ne.mpr (h image hmem)

/-- An extracted slice records the payload of the image it came from. -/
theorem extracted_source {env : Env} {image : Image} {x : InputSlice}
    (h : extracted env image = some x) : x.source = image.data := by
  simp only [extracted, Option.map_eq_some'] at h
  obtain ⟨raster, _, hx⟩ := h
  rw [← hx]

/-- The first loop of createDataset produces one slice per image, in order. -/
theorem inputSlices_forall₂ (env : Env) :
    ∀ {images : List Image} {xs : List InputSlice},
      inputSlices env images = Except.ok xs →
      List.Forall₂ (fun image x => extracted env image = some x) images xs := by
  intro images
  induction images with
  | nil =>
    intro xs h
    simp only [inputSlices, Except.ok.injEq] at h
    rw [← h]
    exact List.Forall₂.nil
  | cons image rest ih =>
    intro xs h
    simp only [inputSlices] at h
    cases hx : extracted env image with
    | none => rw [hx] at h; exact Except.noConfusion h
    | some x =>
      rw [hx] at h
      cases hrest : inputSlices env rest with
      | error e => rw [hrest] at h; exact Except.noConfusion h
      | ok tail =>
        rw [hrest] at h
        simp only [Except.ok.injEq] at h
        rw [← h]
        exact List.Forall₂.cons hx (ih hrest)

/-- The slice list has one entry per filtered image. -/
theorem inputSlices_length {env : Env} {images : List Image} {xs : List InputSlice}
    (h : inputSlices env images = Except.ok xs) : xs.length = images.length :=
  ((inputSlices_forall₂ env h).length_eq).symm

/-- When every image decodes, the first loop succeeds. -/
theorem inputSlices_ok {env : Env} {images : List Image}
    (h : ∀ image ∈ images, (env.decode image.data).isSome) :
    ∃ xs, inputSlices env images = Except.ok xs := by
  induction images with
  | nil => exact ⟨[], rfl⟩
  | cons image rest ih =>
    obtain ⟨xs, hxs⟩ := ih fun i hi => h i (List.mem_cons_of_mem _ hi)
    obtain ⟨raster, hr⟩ :=
      Option.isSome_iff_exists.mp (h image (List.mem_cons_self _ _))
    refine ⟨{ source := image.data, raster := raster } :: xs, ?_⟩
    simp only [inputSlices, extracted, hr, Option.map_some', hxs]

/-- Pointwise reading of a `Forall₂` via `getD`. -/
theorem forall₂_getD {α β : Type} {R : α → β → Prop} {l₁ : List α} {l₂ : List β}
    (h : List.Forall₂ R l₁ l₂) :
    ∀ (i : ℕ), i < l₁.length → ∀ (d₁ : α) (d₂ : β), R (l₁.getD i d₁) (l₂.getD i d₂) := by
  induction h with
  | nil => intro i hi; simp at hi
  | cons hr ht ih =>
    intro i hi d₁ d₂
    cases i with
    | zero => simpa using hr
    | succ n =>
      simp only [List.getD_cons_succ]
      exact ih n (by simpa using hi) d₁ d₂

/-- Pointwise reading of the label vector. -/
theorem labelVector_getD (categories : List Category) (images : List Image) :
    ∀ (i : ℕ), i < images.length →
      (labelVector categories images).getD i 0 =
        findCategoryIndex categories ((images.getD i default).categoryIdentifier) - 1 := by
  induction images with
  | nil => intro i hi; simp at hi
  | cons image rest ih =>
    intro i hi
    cases i with
    | zero => simp [labelVector]
    | succ n =>
      simp only [labelVector, List.map_cons, List.getD_cons_succ]
      exact ih n (by simpa using hi)

/-- A category present in the list is found at a position inside the list. -/
theorem findCategoryIndex_mem {categories : List Category} {identifier : String}
    (h : ∃ c ∈ categories, c.identifier = identifier) :
    0 ≤ findCategoryIndex categories identifier ∧
      findCategoryIndex categories identifier < categories.length := by
  induction categories with
  | nil =>
    obtain ⟨c, hc, _⟩ := h
    exact absurd hc (List.not_mem_nil c)
  | cons c0 rest ih =>
    by_cases hc0 : c0.identifier = identifier
    · simp only [findCategoryIndex, if_pos hc0, List.length_cons]
      constructor
      · exact le_refl 0
      · exact_mod_cast Nat.succ_pos rest.length
    · obtain ⟨c, hc, hci⟩ := h
      rcases List.mem_cons.mp hc with rfl | hmem
      · exact absurd hci hc0
      · obtain ⟨h0, hlt⟩ := ih ⟨c, hmem, hci⟩
        have hne : findCategoryIndex rest identifier ≠ -1 := by omega
        simp only [findCategoryIndex, if_neg hc0, if_neg hne, List.length_cons]
        push_cast
        omega

/-- When the head of the list misses but the identifier occurs in the tail,
the found position shifts by one. -/
theorem findCategoryIndex_cons_ne {c0 : Category} {rest : List Category}
    {identifier : String} (hc0 : c0.identifier ≠ identifier)
    (h : ∃ c ∈ rest, c.identifier = identifier) :
    findCategoryIndex (c0 :: rest) identifier = findCategoryIndex rest identifier + 1 := by
  have h0 := (findCategoryIndex_mem h).1
  have hne : findCategoryIndex rest identifier ≠ -1 := by omega
  simp only [findCategoryIndex, if_neg hc0, if_neg hne]

/-! Helper lemmas about one-hot rows. -/

/-- Length of a one-hot row is the depth. -/
theorem oneHotRow_length (i : Int) (d : ℕ) : (oneHotRow i d).length = d := by
  simp [oneHotRow]

/-- For a nonnegative index the integer comparison collapses to a natural
one. -/
theorem oneHotRow_nonneg_eq (i : Int) (d : ℕ) (h : 0 ≤ i) :
    oneHotRow i d = (List.range d).map fun j => if j = i.toNat then (1:ℚ) else 0 := by
  have hcond : ∀ j : ℕ, ((j : Int) = i) = (j = i.toNat) := fun j => propext (by omega)
  simp only [oneHotRow, hcond]

/-- Entry of a one-hot row. -/
theorem oneHotRow_getD (i : Int) (d : ℕ) (j : ℕ) (hj : j < d) :
    (oneHotRow i d).getD j 0 = if (j : Int) = i then 1 else 0 := by
  rw [oneHotRow, List.getD_eq_getElem?_getD, List.getElem?_map, List.getElem?_range hj]
  rfl

/-- Sum of an indicator list over a range that misses the mark. -/
theorem sum_indicator_of_ge (d k : ℕ) (h : d ≤ k) :
    (((List.range d).map fun j => if j = k then (1:ℚ) else 0)).sum = 0 := by
  induction d with
  | zero => rfl
  | succ n ih =>
    rw [List.range_succ, List.map_append, List.sum_append, ih (by omega)]
    have hnk : n ≠ k := by omega
    simp [hnk]

/-- Sum of an indicator list over a range that hits the mark once. -/
theorem sum_indicator_of_lt (d k : ℕ) (h : k < d) :
    (((List.range d).map fun j => if j = k then (1:ℚ) else 0)).sum = 1 := by
  induction d with
  | zero => omega
  | succ n ih =>
    rw [List.range_succ, List.map_append, List.sum_append]
    by_cases hk : k < n
    · have hnk : n ≠ k := by omega
      rw [ih hk]
      simp [hnk]
    · have hnk : n = k := by omega
      rw [sum_indicator_of_ge n k (by omega)]
      simp [hnk]

/-- Specification-side predicate: `row` is one-hot with its single 1 at
position `k` and 0 everywhere else. -/
def isOneHotAt (row : List ℚ) (k : ℕ) : Prop :=
  k < row.length ∧ ∀ j, j < row.length → row.getD j 0 = if j = k then 1 else 0

/-- An in-range index produces a genuine one-hot row. -/
theorem oneHotRow_isOneHotAt (i : Int) (d : ℕ) (h0 : 0 ≤ i) (hd : i < (d : Int)) :
    isOneHotAt (oneHotRow i d) i.toNat := by
  constructor
  · rw [oneHotRow_length]; omega
  · intro j hj
    rw [oneHotRow_length] at hj
    rw [oneHotRow_getD i d j hj]
    by_cases hji : (j : Int) = i
    · rw [if_pos hji, if_pos (by omega)]
    · rw [if_neg hji, if_neg (by omega)]

/-- An in-range one-hot row sums to 1. -/
theorem oneHotRow_sum_one (i : Int) (d : ℕ) (h0 : 0 ≤ i) (hd : i < (d : Int)) :
    (oneHotRow i d).sum = 1 := by
  rw [oneHotRow_nonneg_eq i d h0]
  exact sum_indicator_of_lt d i.toNat (by omega)

/-! Shared concrete category lists for witnesses and counterexamples. -/

/-- Sentinel plus one trainable category (list size 2). -/
def catsTwo : List Category := [sentinelCategory, mkCategory "cat" 1]

/-- Sentinel plus two trainable categories (list size 3). -/
def catsThree : List Category := [sentinelCategory, mkCategory "cat" 1, mkCategory "dog" 2]

/-- Sentinel plus three trainable categories (list size 4). -/
def catsFour : List Category :=
  [sentinelCategory, mkCategory "cat" 1, mkCategory "dog" 2, mkCategory "owl" 3]

/-- C2: createDataset excludes exactly the sentinel-labeled images: whenever
it returns, the batch size of the input tensor x equals the number of images
whose categoryIdentifier is not the sentinel, and x is the in-order
concatenation of one slice per filtered image. -/
theorem createDataset_batch_size (env : Env) (categories : List Category)
    (images : List Image) (r : DatasetResult)
    (h : createDataset env categories images = Except.ok r) :
    batchSize r.x =
      images.countP (fun image => image.categoryIdentifier != unclassifiedIdentifier) ∧
    ∃ xs, r.x = Tensor.batch xs ∧ xs.length = (filterLabeled images).length := by
  simp only [createDataset] at h
  cases hxs : inputSlices env (filterLabeled images) with
  | error e => rw [hxs] at h; exact Except.noConfusion h
  | ok xs =>
    simp only [hxs] at h
    have hlen : xs.length = (filterLabeled images).length := inputSlices_length hxs
    have hx : r.x = Tensor.batch xs := by
      by_cases hc : (categories.length : Int) - 1 < 2
      · rw [if_pos hc, Except.ok.injEq] at h; rw [← h]
      · rw [if_neg hc, Except.ok.injEq] at h; rw [← h]
    refine ⟨?_, xs, hx, hlen⟩
    rw [hx]
    show xs.length = _
    rw [hlen, filterLabeled, List.countP_eq_length_filter]

/-- Witness for C2: one labeled and zero sentinel images under the concrete
environment. -/
theorem createDataset_batch_size_witness :
    batchSize (DatasetResult.mk false
        (Tensor.batch [{ source := "d1", raster := sampleRaster }])
        (Tensor.batch [{ source := "d1", raster := sampleRaster }])).x =
      List.countP (fun image => image.categoryIdentifier != unclassifiedIdentifier)
        [mkImage "i1" "d1" "cat" Partition.Training] :=
  (createDataset_batch_size sampleEnv catsTwo [mkImage "i1" "d1" "cat" Partition.Training]
    (DatasetResult.mk false
      (Tensor.batch [{ source := "d1", raster := sampleRaster }])
      (Tensor.batch [{ source := "d1", raster := sampleRaster }]))
    (by rfl)).1

/-- C3: with fewer than two non-sentinel categories the dataset reports
failure, and fit and evaluate both detect it and return the nothing-to-do
value (none, the embedding of undefined) instead of invoking the model: in
the embedding a model invocation is exactly a returned FitCall or EvalCall. -/
theorem insufficient_categories_short_circuit (env : Env) (categories : List Category)
    (images : List Image) (args : Option ModelFitArgs)
    (hlen : (categories.length : Int) - 1 < 2)
    (hdec : ∀ image ∈ filterLabeled images, (env.decode image.data).isSome) :
    (∃ r, createDataset env categories images = Except.ok r ∧ r.success = false) ∧
    fit env images categories args = Except.ok none ∧
    evaluate env images categories = Except.ok none := by
  obtain ⟨xs, hxs⟩ := inputSlices_ok hdec
  have hcd : createDataset env categories images =
      Except.ok { success := false, x := Tensor.batch xs, y := Tensor.batch xs } := by
    simp only [createDataset, hxs, if_pos hlen]
  exact ⟨⟨_, hcd, rfl⟩, by simp [fit, hcd], by simp [evaluate, hcd]⟩

/-- Witness for C3: a two-entry category list and an empty image list. -/
theorem insufficient_categories_short_circuit_witness :
    (∃ r, createDataset sampleEnv catsTwo [] = Except.ok r ∧ r.success = false) ∧
    fit sampleEnv [] catsTwo none = Except.ok none ∧
    evaluate sampleEnv [] catsTwo = Except.ok none :=
  insufficient_categories_short_circuit sampleEnv catsTwo [] none (by decide)
    (by intro image hmem; exact absurd hmem (List.not_mem_nil image))

/-- Counterexample to C1 as stated: the category list [sentinel, "cat"] has
size C = 2 ≥ 2 with the sentinel at position 0, and the single image's
category occurs in the list without being the sentinel, yet createDataset
reports success = false (the code demands categories.length - 1 ≥ 2). -/
theorem createDataset_two_entry_list_fails :
    (createDataset sampleEnv catsTwo
        [mkImage "i1" "d1" "cat" Partition.Training]).map DatasetResult.success =
      Except.ok false := by rfl

/-- C1 (amended: the category list must have size at least 3, i.e. at least
two trainable categories besides the sentinel — at size exactly 2 the build
fails, see the counterexample): with the sentinel at position 0 and every
image's category present in the list and distinct from the sentinel, and
every image decodable, createDataset succeeds, its label tensor has shape
[N, C-1], row i's label is the position of image i's category in the full
list minus one, and the encoded row is one-hot at exactly that position. -/
theorem createDataset_one_hot_labels (env : Env) (categories : List Category)
    (images : List Image) (i : ℕ)
    (hlen : 3 ≤ categories.length)
    (hsent : categories.head?.map Category.identifier = some unclassifiedIdentifier)
    (hcat : ∀ image ∈ images, image.categoryIdentifier ≠ unclassifiedIdentifier ∧
      ∃ c ∈ categories, c.identifier = image.categoryIdentifier)
    (hdec : ∀ image ∈ images, (env.decode image.data).isSome)
    (hi : i < images.length) :
    ∃ r, createDataset env categories images = Except.ok r ∧
      r.success = true ∧
      r.y = Tensor.oneHot (labelVector categories images) (categories.length - 1) ∧
      tensorShape r.y = [images.length, categories.length - 1] ∧
      (labelVector categories images).getD i 0 =
        findCategoryIndex categories ((images.getD i default).categoryIdentifier) - 1 ∧
      0 ≤ (labelVector categories images).getD i 0 ∧
      (labelVector categories images).getD i 0 < ((categories.length - 1 : ℕ) : Int) ∧
      isOneHotAt
        (oneHotRow ((labelVector categories images).getD i 0) (categories.length - 1))
        ((labelVector categories images).getD i 0).toNat ∧
      (oneHotRow ((labelVector categories images).getD i 0) (categories.length - 1)).sum = 1 := by
  have hfl : filterLabeled images = images :=
    filterLabeled_eq_self fun im hm => (hcat im hm).1
  obtain ⟨xs, hxs⟩ := inputSlices_ok hdec
  have hc : ¬ ((categories.length : Int) - 1 < 2) := by omega
  have hcd : createDataset env categories images =
      Except.ok
        { success := true, x := Tensor.batch xs,
          y := Tensor.oneHot (labelVector categories images) (categories.length - 1) } := by
    simp only [createDataset, hfl, hxs, if_neg hc]
  have hmem : images.getD i default ∈ images := by
    rw [List.getD_eq_getElem?_getD, List.getElem?_eq_getElem hi]
    exact List.getElem_mem hi
  have hlab : (labelVector categories images).getD i 0 =
      findCategoryIndex categories ((images.getD i default).categoryIdentifier) - 1 :=
    labelVector_getD categories images i hi
  obtain ⟨hne, c, hcmem, hcid⟩ := hcat _ hmem
  cases categories with
  | nil => simp at hsent
  | cons c0 rest =>
    simp only [List.head?, Option.map_some', Option.some.injEq] at hsent
    have hc0 : c0.identifier ≠ (images.getD i default).categoryIdentifier := by
      rw [hsent]; exact fun e => hne e.symm
    rcases List.mem_cons.mp hcmem with rfl | hcrest
    · exact absurd hcid hc0
    · have hshift := findCategoryIndex_cons_ne hc0 ⟨c, hcrest, hcid⟩
      obtain ⟨hr0, hrlt⟩ := findCategoryIndex_mem ⟨c, hcrest, hcid⟩
      have h6 : 0 ≤ (labelVector (c0 :: rest) images).getD i 0 := by
        rw [hlab, hshift]; omega
      have h7 : (labelVector (c0 :: rest) images).getD i 0 <
          (((c0 :: rest).length - 1 : ℕ) : Int) := by
        rw [hlab, hshift]
        simp only [List.length_cons]
        push_cast
        omega
      refine ⟨_, hcd, rfl, rfl, ?_, hlab, h6, h7, ?_, ?_⟩
      · simp [tensorShape, labelVector]
      · exact oneHotRow_isOneHotAt _ _ h6 h7
      · exact oneHotRow_sum_one _ _ h6 h7

/-- Witness for the amended C1: categories [sentinel, "cat", "dog"], one
image labeled "cat", row 0. -/
theorem createDataset_one_hot_labels_witness :
    ∃ r, createDataset sampleEnv catsThree
        [mkImage "i1" "d1" "cat" Partition.Training] = Except.ok r ∧
      r.success = true ∧
      r.y = Tensor.oneHot
        (labelVector catsThree [mkImage "i1" "d1" "cat" Partition.Training])
        (catsThree.length - 1) ∧
      tensorShape r.y =
        [[mkImage "i1" "d1" "cat" Partition.Training].length, catsThree.length - 1] ∧
      (labelVector catsThree [mkImage "i1" "d1" "cat" Partition.Training]).getD 0 0 =
        findCategoryIndex catsThree
          (([mkImage "i1" "d1" "cat" Partition.Training].getD 0 default).categoryIdentifier)
          - 1 ∧
      0 ≤ (labelVector catsThree [mkImage "i1" "d1" "cat" Partition.Training]).getD 0 0 ∧
      (labelVector catsThree [mkImage "i1" "d1" "cat" Partition.Training]).getD 0 0 <
        ((catsThree.length - 1 : ℕ) : Int) ∧
      isOneHotAt
        (oneHotRow
          ((labelVector catsThree [mkImage "i1" "d1" "cat" Partition.Training]).getD 0 0)
          (catsThree.length - 1))
        ((labelVector catsThree [mkImage "i1" "d1" "cat" Partition.Training]).getD 0 0).toNat ∧
      (oneHotRow
          ((labelVector catsThree [mkImage "i1" "d1" "cat" Partition.Training]).getD 0 0)
          (catsThree.length - 1)).sum = 1 :=
  createDataset_one_hot_labels sampleEnv catsThree
    [mkImage "i1" "d1" "cat" Partition.Training] 0
    (by decide) (by decide) (by decide) (by decide) (by decide)

/-- C4 (the claim names the intended behavior; the code does the opposite):
an image whose category identifier appears nowhere in the four-entry
category list triggers no error at all — findCategoryIndex returns the
not-found value -1, the label silently becomes -1 - 1 = -2, one-hot encoding
turns it into an all-zero row, and the build still reports success. -/
theorem missing_category_is_silent :
    findCategoryIndex catsFour "missing" = -1 ∧
    createDataset sampleEnv catsFour [mkImage "i1" "dm" "missing" Partition.Training] =
      Except.ok
        { success := true,
          x := Tensor.batch [{ source := "dm", raster := sampleRaster }],
          y := Tensor.oneHot [-2] 3 } ∧
    oneHotRow (-2) 3 = [0, 0, 0] := by
  refine ⟨by rfl, by rfl, ?_⟩
  decide

/-- C9: the i-th slice of the concatenated input tensor x was extracted from
the i-th filtered image, and the i-th label was computed from that same
image, so x and the label vector are paired in input order. -/
theorem dataset_pairing (env : Env) (categories : List Category) (images : List Image)
    (xs : List InputSlice) (r : DatasetResult) (i : ℕ)
    (hxs : inputSlices env (filterLabeled images) = Except.ok xs)
    (hr : createDataset env categories images = Except.ok r)
    (hi : i < (filterLabeled images).length) :
    r.x = Tensor.batch xs ∧
    xs.length = (filterLabeled images).length ∧
    (labelVector categories (filterLabeled images)).length =
      (filterLabeled images).length ∧
    extracted env ((filterLabeled images).getD i default) = some (xs.getD i default) ∧
    (xs.getD i default).source = ((filterLabeled images).getD i default).data ∧
    (labelVector categories (filterLabeled images)).getD i 0 =
      findCategoryIndex categories
        ((filterLabeled images).getD i default).categoryIdentifier - 1 := by
  have hf₂ := inputSlices_forall₂ env hxs
  have hlen := inputSlices_length hxs
  have hex : extracted env ((filterLabeled images).getD i default) =
      some (xs.getD i default) :=
    forall₂_getD hf₂ i hi default default
  have hx : r.x = Tensor.batch xs := by
    simp only [createDataset, hxs] at hr
    by_cases hc : (categories.length : Int) - 1 < 2
    · rw [if_pos hc, Except.ok.injEq] at hr; rw [← hr]
    · rw [if_neg hc, Except.ok.injEq] at hr; rw [← hr]
  exact ⟨hx, hlen, by simp [labelVector], hex, extracted_source hex,
    labelVector_getD _ _ i hi⟩

/-- Witness for C9: one non-sentinel image at position 0. -/
theorem dataset_pairing_witness :
    (DatasetResult.mk false
        (Tensor.batch [{ source := "d1", raster := sampleRaster }])
        (Tensor.batch [{ source := "d1", raster := sampleRaster }])).x =
      Tensor.batch [{ source := "d1", raster := sampleRaster }] ∧
    ([{ source := "d1", raster := sampleRaster }] : List InputSlice).length =
      (filterLabeled [mkImage "i1" "d1" "cat" Partition.Training]).length ∧
    (labelVector catsTwo
        (filterLabeled [mkImage "i1" "d1" "cat" Partition.Training])).length =
      (filterLabeled [mkImage "i1" "d1" "cat" Partition.Training]).length ∧
    extracted sampleEnv
        ((filterLabeled [mkImage "i1" "d1" "cat" Partition.Training]).getD 0 default) =
      some (([{ source := "d1", raster := sampleRaster }] : List InputSlice).getD 0 default) ∧
    (([{ source := "d1", raster := sampleRaster }] : List InputSlice).getD 0 default).source =
      ((filterLabeled [mkImage "i1" "d1" "cat" Partition.Training]).getD 0 default).data ∧
    (labelVector catsTwo
        (filterLabeled [mkImage "i1" "d1" "cat" Partition.Training])).getD 0 0 =
      findCategoryIndex catsTwo
        ((filterLabeled [mkImage "i1" "d1" "cat" Partition.Training]).getD 0
          default).categoryIdentifier - 1 :=
  dataset_pairing sampleEnv catsTwo [mkImage "i1" "d1" "cat" Partition.Training]
    [{ source := "d1", raster := sampleRaster }]
    (DatasetResult.mk false
      (Tensor.batch [{ source := "d1", raster := sampleRaster }])
      (Tensor.batch [{ source := "d1", raster := sampleRaster }]))
    0 (by rfl) (by rfl) (by decide)

/-- C8: every successful fit or evaluate call invokes a model freshly built
by createModel with categories.length - 1 output classes and hidden width
100, and createModel's head is the truncated backbone followed by a flatten
layer, a dense layer of the given hidden width with ReLU activation and
bias, and a final dense layer of the given class count with softmax
activation and no bias, compiled with categorical cross-entropy, accuracy
and adam. -/
theorem facade_builds_fresh_head (env : Env) (images : List Image)
    (categories : List Category) (args : Option ModelFitArgs)
    (classes units : Int) (cF : FitCall) (cE : EvalCall)
    (hf : fit env images categories args = Except.ok (some cF))
    (he : evaluate env images categories = Except.ok (some cE)) :
    cF.model = createModel env ((categories.length : Int) - 1) 100 ∧
    cE.model = createModel env ((categories.length : Int) - 1) 100 ∧
    (createModel env classes units).layers =
      env.backboneLayers ++
        [Layer.flatten,
         Layer.dense units Activation.relu "varianceScaling" true,
         Layer.dense classes Activation.softmax "varianceScaling" false] ∧
    (createModel env classes units).loss = "categoricalCrossentropy" ∧
    (createModel env classes units).metrics = ["accuracy"] ∧
    (createModel env classes units).optimizer = "adam" := by
  refine ⟨?_, ?_, rfl, rfl, rfl, rfl⟩
  · simp only [fit] at hf
    cases hcd : createDataset env categories images with
    | error e => rw [hcd] at hf; exact Except.noConfusion hf
    | ok r =>
      simp only [hcd] at hf
      by_cases hs : r.success = true
      · rw [if_pos hs, Except.ok.injEq, Option.some.injEq] at hf
        rw [← hf]
      · rw [if_neg hs] at hf
        exact Option.noConfusion (Except.ok.inj hf)
  · simp only [evaluate] at he
    cases hcd : createDataset env categories images with
    | error e => rw [hcd] at he; exact Except.noConfusion he
    | ok r =>
      simp only [hcd] at he
      by_cases hs : r.success = true
      · rw [if_pos hs, Except.ok.injEq, Option.some.injEq] at he
        rw [← he]
      · rw [if_neg hs] at he
        exact Option.noConfusion (Except.ok.inj he)

/-- Witness for C8: a four-entry category list and no images; the facade
invokes the model built for 3 classes and 100 hidden units. -/
theorem facade_builds_fresh_head_witness :
    (FitCall.mk (createModel sampleEnv 3 100) (Tensor.batch [])
        (Tensor.oneHot [] 3) emptyFitArgs).model =
      createModel sampleEnv ((catsFour.length : Int) - 1) 100 ∧
    (EvalCall.mk (createModel sampleEnv 3 100) (Tensor.batch [])
        (Tensor.oneHot [] 3)).model =
      createModel sampleEnv ((catsFour.length : Int) - 1) 100 ∧
    (createModel sampleEnv 3 100).layers =
      sampleEnv.backboneLayers ++
        [Layer.flatten,
         Layer.dense 100 Activation.relu "varianceScaling" true,
         Layer.dense 3 Activation.softmax "varianceScaling" false] ∧
    (createModel sampleEnv 3 100).loss = "categoricalCrossentropy" ∧
    (createModel sampleEnv 3 100).metrics = ["accuracy"] ∧
    (createModel sampleEnv 3 100).optimizer = "adam" :=
  facade_builds_fresh_head sampleEnv [] catsFour none 3 100
    (FitCall.mk (createModel sampleEnv 3 100) (Tensor.batch [])
      (Tensor.oneHot [] 3) emptyFitArgs)
    (EvalCall.mk (createModel sampleEnv 3 100) (Tensor.batch [])
      (Tensor.oneHot [] 3))
    (by rfl) (by rfl)

/-- Two image records agree on the only fields the dataset pipeline reads:
the pixel payload and the category identifier. -/
def AgreesOn (a b : Image) : Prop :=
  a.data = b.data ∧ a.categoryIdentifier = b.categoryIdentifier

/-- The sentinel filter preserves pointwise agreement. -/
theorem filterLabeled_forall₂ {l₁ l₂ : List Image}
    (h : List.Forall₂ AgreesOn l₁ l₂) :
    List.Forall₂ AgreesOn (filterLabeled l₁) (filterLabeled l₂) := by
  induction h with
  | nil => exact List.Forall₂.nil
  | cons ha ht ih =>
    rename_i a b t₁ t₂
    simp only [filterLabeled, List.filter_cons] at *
    rw [ha.2]
    split_ifs with hp
    · exact List.Forall₂.cons ha ih
    · exact ih

/-- The first loop only reads the pixel payload. -/
theorem inputSlices_congr (env : Env) {l₁ l₂ : List Image}
    (h : List.Forall₂ AgreesOn l₁ l₂) :
    inputSlices env l₁ = inputSlices env l₂ := by
  induction h with
  | nil => rfl
  | cons ha ht ih =>
    rename_i a b t₁ t₂
    simp only [inputSlices, extracted, ha.1, ih]

/-- The second loop only reads the category identifier. -/
theorem labelVector_congr (categories : List Category) {l₁ l₂ : List Image}
    (h : List.Forall₂ AgreesOn l₁ l₂) :
    labelVector categories l₁ = labelVector categories l₂ := by
  induction h with
  | nil => rfl
  | cons ha ht ih =>
    rename_i a b t₁ t₂
    simp only [labelVector, List.map_cons]
    rw [ha.2]
    congr 1

/-- C10: createDataset, fit and evaluate depend on an image only through its
data and categoryIdentifier; partition, scores, checksum, identifier and
visualization are ignored, so Validation- and Test-partition images are
treated exactly like Training-partition images. -/
theorem dataset_ignores_metadata (env : Env) (categories : List Category)
    (imgs₁ imgs₂ : List Image) (args : Option ModelFitArgs)
    (h : List.Forall₂ AgreesOn imgs₁ imgs₂) :
    createDataset env categories imgs₁ = createDataset env categories imgs₂ ∧
    fit env imgs₁ categories args = fit env imgs₂ categories args ∧
    evaluate env imgs₁ categories = evaluate env imgs₂ categories := by
  have hfl := filterLabeled_forall₂ h
  have hcd : createDataset env categories imgs₁ = createDataset env categories imgs₂ := by
    simp only [createDataset, inputSlices_congr env hfl, labelVector_congr categories hfl]
  exact ⟨hcd, by simp only [fit, hcd], by simp only [evaluate, hcd]⟩

/-- Witness for C10: the same pixel payload and category under two records
that differ in identifier, checksum, partition, scores and visualization. -/
theorem dataset_ignores_metadata_witness :
    createDataset sampleEnv catsThree [mkImage "a" "d1" "cat" Partition.Training] =
      createDataset sampleEnv catsThree
        [{ categoryIdentifier := "cat", checksum := "zzz", data := "d1",
           identifier := "b", partition := Partition.Test,
           scores := [{ categoryIdentifier := "cat", probability := 1 / 2 }],
           visualization := { brightness := 1, visibleChannels := [0],
                              contrast := 2, visible := false } }] ∧
    fit sampleEnv [mkImage "a" "d1" "cat" Partition.Training] catsThree none =
      fit sampleEnv
        [{ categoryIdentifier := "cat", checksum := "zzz", data := "d1",
           identifier := "b", partition := Partition.Test,
           scores := [{ categoryIdentifier := "cat", probability := 1 / 2 }],
           visualization := { brightness := 1, visibleChannels := [0],
                              contrast := 2, visible := false } }] catsThree none ∧
    evaluate sampleEnv [mkImage "a" "d1" "cat" Partition.Training] catsThree =
      evaluate sampleEnv
        [{ categoryIdentifier := "cat", checksum := "zzz", data := "d1",
           identifier := "b", partition := Partition.Test,
           scores := [{ categoryIdentifier := "cat", probability := 1 / 2 }],
           visualization := { brightness := 1, visibleChannels := [0],
                              contrast := 2, visible := false } }] catsThree :=
  dataset_ignores_metadata sampleEnv catsThree
    [mkImage "a" "d1" "cat" Partition.Training]
    [{ categoryIdentifier := "cat", checksum := "zzz", data := "d1",
       identifier := "b", partition := Partition.Test,
       scores := [{ categoryIdentifier := "cat", probability := 1 / 2 }],
       visualization := { brightness := 1, visibleChannels := [0],
                          contrast := 2, visible := false } }] none
    (List.Forall₂.cons ⟨rfl, rfl⟩ List.Forall₂.nil)
